import Mathlib

/-!
Verification of the `LibraryManager` component of the booklibrary2
repository (`library_manager.py`): an in-memory ordered list of book
records mirrored to a JSON file, with add / remove / search / statistics
operations.

The embedding follows the Python source directly:
* `Book` is the dictionary built in `add_book` (lines 17-23).
* `searchBook`, `removeBook`, `addBook`, `getStatistics` embed the
  methods of the same names; the session state (`st.session_state.library`
  together with the storage file) is passed explicitly as a `Session`.
* Persistence is modelled at the level of JSON values (`JVal`): the
  Python code delegates text encoding/decoding to the standard `json`
  module, so the file content is represented as either a well-formed JSON
  value (`goodJson`) or un-parseable text (`badJson`), matching the two
  outcomes of `json.load` that `load_library` distinguishes.
* Python floats are modelled as rationals (`ℚ`); the statistics formula
  is `read / total * 100`, exactly as in `get_statistics` (line 49).
-/

namespace BookLib

/-- A book record, as constructed by `add_book` (library_manager.py lines
17-23): keys `title`, `author`, `year`, `genre`, `read`. -/
structure Book where
  title : String
  author : String
  year : Int
  genre : String
  read : Bool
deriving DecidableEq, Repr

/-- Python `str.lower()` applied to a string, viewed as its character
list (ASCII case folding via `Char.toLower`). -/
def lowerStr (s : String) : List Char :=
  s.data.map Char.toLower

/-- `needle` occurs at the start of `hay`. -/
def hasPrefixCh : List Char → List Char → Bool
  | [], _ => true
  | _ :: _, [] => false
  | a :: as, b :: bs => a == b && hasPrefixCh as bs

/-- `needle` occurs contiguously somewhere in `hay` (Python's `in` on
strings). -/
def hasSubstrCh : List Char → List Char → Bool
  | needle, [] => hasPrefixCh needle []
  | needle, b :: bs => hasPrefixCh needle (b :: bs) || hasSubstrCh needle bs

/-- Python `search_term in field.lower()` after `search_term.lower()`:
case-insensitive substring containment. -/
def containsCI (term field : String) : Bool :=
  hasSubstrCh (lowerStr term) (lowerStr field)

/-- `search_book` (lines 37-43): lowercase the term, then if
`search_by == "Title"` filter on titles, else filter on authors. -/
def searchBook (searchTerm searchBy : String) (library : List Book) : List Book :=
  if searchBy = "Title" then
    library.filter (fun book => containsCI searchTerm book.title)
  else
    library.filter (fun book => containsCI searchTerm book.author)

/-- A JSON value, the codomain of `json.load` / domain of `json.dump`
(only the constructors the program can encounter matter here). -/
inductive JVal where
  | jstr (s : String)
  | jint (n : Int)
  | jbool (b : Bool)
  | jarr (elems : List JVal)
  | jobj (fields : List (String × JVal))
  | jnull
deriving Repr

/-- The JSON object `json.dump` writes for one book dictionary. -/
def bookToJson (b : Book) : JVal :=
  .jobj [("title", .jstr b.title), ("author", .jstr b.author),
         ("year", .jint b.year), ("genre", .jstr b.genre),
         ("read", .jbool b.read)]

/-- The JSON array `save_library` writes: the whole library in order. -/
def serializeLib (library : List Book) : JVal :=
  .jarr (library.map bookToJson)

/-- Content of the storage file `library.txt`: either text that parses as
a JSON value, or text on which `json.load` raises `JSONDecodeError`. -/
inductive FileData where
  | goodJson (v : JVal)
  | badJson (text : String)

/-- The session state visible to `LibraryManager`: the in-memory library
(`st.session_state.library`) and the storage file (`None` = absent). -/
structure Session where
  library : List Book
  file : Option FileData

/-- `save_library` (lines 57-60): open the file in mode `'w'` (truncate)
and dump the full library, fully overwriting prior contents. -/
def saveLibrary (s : Session) : Session :=
  ⟨s.library, some (.goodJson (serializeLib s.library))⟩

/-- `add_book` (lines 15-27): build the book dict, append it, save,
return `True`. -/
def addBook (s : Session) (title author : String) (year : Int)
    (genre : String) (readStatus : Bool) : Session × Bool :=
  let book : Book := ⟨title, author, year, genre, readStatus⟩
  (saveLibrary ⟨s.library ++ [book], s.file⟩, true)

/-- `remove_book` (lines 29-35): if `0 <= index < len(library)`, pop the
entry at `index`, save and return `True`; otherwise return `False`. -/
def removeBook (s : Session) (index : Int) : Session × Bool :=
  if 0 ≤ index ∧ index < (s.library.length : Int) then
    (saveLibrary ⟨s.library.eraseIdx index.toNat, s.file⟩, true)
  else
    (s, false)

/-- Result record of `get_statistics` (lines 51-55). -/
structure LibStats where
  total_books : Nat
  read_books : Nat
  percentage_read : ℚ
deriving DecidableEq, Repr

/-- `get_statistics` (lines 45-55): total count, count of read books,
and `(read / total) * 100 if total > 0 else 0`. -/
def getStatistics (library : List Book) : LibStats :=
  let totalBooks := library.length
  let readBooks := library.countP (fun book => book.read)
  ⟨totalBooks, readBooks,
    if totalBooks > 0 then ((readBooks : ℚ) / (totalBooks : ℚ)) * 100 else 0⟩

/-- A message surfaced to the user: `st.error` or `st.info`. -/
inductive StMsg where
  | stError (msg : String)
  | stInfo (msg : String)
deriving DecidableEq, Repr

/-- `load_library` (lines 62-71), acting on the current in-memory library
value: if the file exists and parses, the parsed value replaces the
library verbatim; on parse failure the library is left as it was and an
error is surfaced; if the file is absent, an info notice is surfaced.
The library slot is a raw `JVal` because `json.load`'s result is stored
without any schema validation. -/
def loadLibrary (current : JVal) (file : Option FileData) : JVal × List StMsg :=
  match file with
  | some (.goodJson v) => (v, [])
  | some (.badJson _) =>
      (current, [.stError "Error loading library file. Starting with an empty library."])
  | none =>
      (current, [.stInfo "No existing library file found. Starting with an empty library."])

/-- `__init__` (lines 8-13): start with `library = []`, then load. -/
def initLibrary (file : Option FileData) : JVal × List StMsg :=
  loadLibrary (.jarr []) file

/-- Read a `Book` back out of a JSON value (the inverse reading of
`bookToJson`; used to state round-trip and no-validation claims). -/
def decodeBook (v : JVal) : Option Book :=
  match v with
  | .jobj fields =>
    match fields.lookup "title", fields.lookup "author", fields.lookup "year",
          fields.lookup "genre", fields.lookup "read" with
    | some (.jstr t), some (.jstr a), some (.jint y), some (.jstr g), some (.jbool r) =>
        some ⟨t, a, y, g, r⟩
    | _, _, _, _, _ => none
  | _ => none

/-- Decode each element of a JSON array as a book; fail if any fails. -/
def decodeBooks : List JVal → Option (List Book)
  | [] => some []
  | v :: rest =>
    match decodeBook v, decodeBooks rest with
    | some b, some bs => some (b :: bs)
    | _, _ => none

/-- Read an ordered book sequence back out of a JSON value. -/
def decodeLib (v : JVal) : Option (List Book) :=
  match v with
  | .jarr elems => decodeBooks elems
  | _ => none

/-- The first book of the spec's statistics scenario. -/
def dune : Book := ⟨"Dune", "Frank Herbert", 1965, "Sci-Fi", true⟩

/-- The second book of the spec's statistics scenario. -/
def hobbit : Book := ⟨"Hobbit", "J.R.R. Tolkien", 1937, "Fantasy", false⟩

/-- A fresh session: empty library, no storage file yet. -/
def emptySession : Session := ⟨[], none⟩

/-- A two-book session used to instantiate the conditional theorems. -/
def demoSession : Session := ⟨[dune, hobbit], none⟩

theorem hasPrefixCh_iff (n h : List Char) : hasPrefixCh n h = true ↔ n <+: h := by
  induction n generalizing h with
  | nil => simp [hasPrefixCh]
  | cons a as ih =>
    cases h with
    | nil => simp [hasPrefixCh, List.prefix_nil]
    | cons b bs => simp [hasPrefixCh, List.cons_prefix_cons, ih]

theorem hasSubstrCh_iff (n h : List Char) : hasSubstrCh n h = true ↔ n <:+: h := by
  induction h with
  | nil =>
    cases n with
    | nil => simp [hasSubstrCh, hasPrefixCh]
    | cons a as => simp [hasSubstrCh, hasPrefixCh, List.infix_nil]
  | cons b bs ih =>
    simp [hasSubstrCh, hasPrefixCh_iff, ih, List.infix_cons_iff]

theorem containsCI_iff (term field : String) :
    containsCI term field = true ↔ lowerStr term <:+: lowerStr field :=
  hasSubstrCh_iff _ _

theorem containsCI_nil (field : String) : containsCI "" field = true :=
  (hasSubstrCh_iff [] (lowerStr field)).mpr List.nil_infix

theorem decodeBook_bookToJson (b : Book) : decodeBook (bookToJson b) = some b := rfl

theorem decodeLib_serializeLib (library : List Book) :
    decodeLib (serializeLib library) = some library := by
  induction library with
  | nil => rfl
  | cons b rest ih =>
      simp only [serializeLib, decodeLib, List.map_cons, decodeBooks,
        decodeBook_bookToJson] at ih ⊢
      rw [ih]

/-- C1: for every library state and every search term, `search(term, "Title")`
returns exactly the subsequence of books whose title contains the term
case-insensitively, preserving the original order of the library;
`search(term, "Author")` behaves analogously on the author field; and for
the empty term every book is returned. -/
theorem search_book_spec (term : String) (library : List Book) :
    searchBook term "Title" library
      = library.filter (fun book => containsCI term book.title) ∧
    searchBook term "Author" library
      = library.filter (fun book => containsCI term book.author) ∧
    (searchBook term "Title" library).Sublist library ∧
    (searchBook term "Author" library).Sublist library ∧
    (∀ b : Book, b ∈ searchBook term "Title" library ↔
      b ∈ library ∧ lowerStr term <:+: lowerStr b.title) ∧
    (∀ b : Book, b ∈ searchBook term "Author" library ↔
      b ∈ library ∧ lowerStr term <:+: lowerStr b.author) ∧
    searchBook "" "Title" library = library ∧
    searchBook "" "Author" library = library := by
  have hT : ∀ t, searchBook t "Title" library
      = library.filter (fun book => containsCI t book.title) := by
    intro t; simp [searchBook]
  have hA : ∀ t, searchBook t "Author" library
      = library.filter (fun book => containsCI t book.author) := by
    intro t; simp [searchBook]
  refine ⟨hT term, hA term, ?_, ?_, ?_, ?_, ?_, ?_⟩
  · rw [hT]; exact List.filter_sublist _
  · rw [hA]; exact List.filter_sublist _
  · intro b; rw [hT, List.mem_filter, containsCI_iff]
  · intro b; rw [hA, List.mem_filter, containsCI_iff]
  · rw [hT, List.filter_eq_self.mpr (fun a _ => containsCI_nil _)]
  · rw [hA, List.filter_eq_self.mpr (fun a _ => containsCI_nil _)]

/-- C10: search's field dispatch is total but asymmetric — any `search_by`
value other than exactly `"Title"` (even `"title"` or `"author"`) selects
the author field. -/
theorem search_book_field_dispatch (term field : String) (library : List Book)
    (h : field ≠ "Title") :
    searchBook term field library
      = library.filter (fun book => containsCI term book.author) := by
  simp [searchBook, h]

/-- Witness for C10 at the lowercase field name `"title"`. -/
theorem search_book_field_dispatch_witness :
    searchBook "tolkien" "title" demoSession.library
      = demoSession.library.filter (fun book => containsCI "tolkien" book.author) :=
  search_book_field_dispatch "tolkien" "title" demoSession.library (by decide)

/-- C2: for every library of length n and index i with 0 ≤ i < n,
`remove(i)` returns success, deletes exactly the entry at position i
(result = take i ++ drop (i+1)), leaves positions < i unchanged, shifts
positions > i down by one (new length n - 1), and persists the updated
library to the file. -/
theorem remove_book_in_range (s : Session) (i : Int)
    (h0 : 0 ≤ i) (h1 : i < (s.library.length : Int)) :
    (removeBook s i).2 = true ∧
    (removeBook s i).1.library
      = s.library.take i.toNat ++ s.library.drop (i.toNat + 1) ∧
    (removeBook s i).1.library.length = s.library.length - 1 ∧
    (∀ k : Nat, k < i.toNat → (removeBook s i).1.library[k]? = s.library[k]?) ∧
    (∀ k : Nat, i.toNat ≤ k → (removeBook s i).1.library[k]? = s.library[k + 1]?) ∧
    (removeBook s i).1.file
      = some (.goodJson (serializeLib (removeBook s i).1.library)) := by
  have hcond : 0 ≤ i ∧ i < (s.library.length : Int) := ⟨h0, h1⟩
  have hlt : i.toNat < s.library.length := by omega
  have he : removeBook s i = (saveLibrary ⟨s.library.eraseIdx i.toNat, s.file⟩, true) := by
    simp only [removeBook, if_pos hcond]
  rw [he]
  refine ⟨rfl, List.eraseIdx_eq_take_drop_succ _ _, ?_, ?_, ?_, rfl⟩
  · show (s.library.eraseIdx i.toNat).length = s.library.length - 1
    rw [List.length_eraseIdx, if_pos hlt]
  · intro k hk; exact List.getElem?_eraseIdx_of_lt _ _ _ hk
  · intro k hk; exact List.getElem?_eraseIdx_of_ge _ _ _ hk

/-- Witness for C2: removing index 0 from a two-book library. -/
theorem remove_book_in_range_witness :
    (removeBook demoSession 0).2 = true ∧
    (removeBook demoSession 0).1.library
      = demoSession.library.take 0 ++ demoSession.library.drop 1 ∧
    (removeBook demoSession 0).1.library.length = demoSession.library.length - 1 ∧
    (∀ k : Nat, k < 0 → (removeBook demoSession 0).1.library[k]? = demoSession.library[k]?) ∧
    (∀ k : Nat, 0 ≤ k → (removeBook demoSession 0).1.library[k]? = demoSession.library[k + 1]?) ∧
    (removeBook demoSession 0).1.file
      = some (.goodJson (serializeLib (removeBook demoSession 0).1.library)) :=
  remove_book_in_range demoSession 0 (by decide) (by decide)

/-- C3: for every index outside `[0, n)` — negative or ≥ n — `remove(i)`
returns failure and the whole session (in-memory library and storage file)
is completely unchanged; no exception is raised (the operation is total). -/
theorem remove_book_out_of_range (s : Session) (i : Int)
    (h : i < 0 ∨ (s.library.length : Int) ≤ i) :
    removeBook s i = (s, false) := by
  have hcond : ¬(0 ≤ i ∧ i < (s.library.length : Int)) := by omega
  simp [removeBook, hcond]

/-- Witness for C3: the spec's scenario — remove(5) on a library of
length 2 fails and changes nothing. -/
theorem remove_book_out_of_range_witness :
    removeBook demoSession 5 = (demoSession, false) :=
  remove_book_out_of_range demoSession 5 (by decide)

/-- C4: round-trip — persisting any library with `save_library` and then
reloading the resulting file with `load_library` (no intervening
corruption) yields the serialized library verbatim, and reading it back
as books gives the identical ordered sequence. -/
theorem save_load_round_trip (library : List Book) (file0 : Option FileData) :
    (loadLibrary (.jarr []) (saveLibrary ⟨library, file0⟩).file).1
      = serializeLib library ∧
    decodeLib (loadLibrary (.jarr []) (saveLibrary ⟨library, file0⟩).file).1
      = some library :=
  ⟨rfl, decodeLib_serializeLib library⟩

/-- C5: `get_statistics` returns the library length, the count of read
entries, and `read / total * 100` when total > 0 and 0 otherwise; on the
empty library it returns (0, 0, 0), and after adding one read and one
unread book it returns (2, 1, 50). -/
theorem get_statistics_spec (library : List Book) :
    (getStatistics library).total_books = library.length ∧
    (getStatistics library).read_books = library.countP (fun book => book.read) ∧
    (getStatistics library).percentage_read
      = (if 0 < library.length
          then ((library.countP (fun book => book.read) : ℚ) / (library.length : ℚ)) * 100
          else 0) ∧
    getStatistics [] = ⟨0, 0, 0⟩ ∧
    getStatistics ((addBook (addBook emptySession "Dune" "Frank Herbert" 1965 "Sci-Fi"
        true).1 "Hobbit" "J.R.R. Tolkien" 1937 "Fantasy" false).1).library
      = ⟨2, 1, 50⟩ := by
  refine ⟨rfl, rfl, rfl, rfl, ?_⟩
  show getStatistics [⟨"Dune", "Frank Herbert", 1965, "Sci-Fi", true⟩,
    ⟨"Hobbit", "J.R.R. Tolkien", 1937, "Fantasy", false⟩] = ⟨2, 1, 50⟩
  simp only [getStatistics, List.length_cons, List.length_nil, List.countP_cons,
    List.countP_nil]
  norm_num

/-- C6: `add_book` always succeeds: it appends exactly the book built from
its arguments at the end of the library (length grows by one, the new
entry is last, prior entries are unchanged in place) and persists the
updated library to the file. -/
theorem add_book_spec (s : Session) (title author : String) (year : Int)
    (genre : String) (readStatus : Bool) :
    (addBook s title author year genre readStatus).2 = true ∧
    (addBook s title author year genre readStatus).1.library
      = s.library ++ [⟨title, author, year, genre, readStatus⟩] ∧
    (addBook s title author year genre readStatus).1.library.length
      = s.library.length + 1 ∧
    (addBook s title author year genre readStatus).1.library.getLast?
      = some ⟨title, author, year, genre, readStatus⟩ ∧
    (∀ k : Nat, k < s.library.length →
      (addBook s title author year genre readStatus).1.library[k]? = s.library[k]?) ∧
    (addBook s title author year genre readStatus).1.file
      = some (.goodJson (serializeLib
          (addBook s title author year genre readStatus).1.library)) := by
  refine ⟨rfl, rfl, ?_, ?_, ?_, rfl⟩
  · show (s.library ++ [(⟨title, author, year, genre, readStatus⟩ : Book)]).length
      = s.library.length + 1
    simp
  · show (s.library ++ [(⟨title, author, year, genre, readStatus⟩ : Book)]).getLast?
      = some (⟨title, author, year, genre, readStatus⟩ : Book)
    simp
  · intro k hk
    show (s.library ++ [(⟨title, author, year, genre, readStatus⟩ : Book)])[k]?
      = s.library[k]?
    rw [List.getElem?_append, if_pos hk]

/-- C7: mirror invariant — after every `add_book` and every successful
`remove_book`, the storage file holds exactly the JSON-array serialization
of the entire current in-memory library (prior file contents are fully
overwritten, regardless of what they were). -/
theorem mutation_mirror_invariant (s : Session) (title author : String)
    (year : Int) (genre : String) (readStatus : Bool) (i : Int) :
    (addBook s title author year genre readStatus).1.file
      = some (.goodJson (serializeLib
          (addBook s title author year genre readStatus).1.library)) ∧
    ((removeBook s i).2 = true →
      (removeBook s i).1.file
        = some (.goodJson (serializeLib (removeBook s i).1.library))) := by
  refine ⟨rfl, ?_⟩
  intro hrem
  by_cases hcond : 0 ≤ i ∧ i < (s.library.length : Int)
  · have he : removeBook s i = (saveLibrary ⟨s.library.eraseIdx i.toNat, s.file⟩, true) := by
      simp only [removeBook, if_pos hcond]
    rw [he]
    rfl
  · have he : removeBook s i = (s, false) := by
      simp only [removeBook, if_neg hcond]
    rw [he] at hrem
    exact absurd hrem (by simp)

/-- Witness for C7 on a concrete session: one add and one in-range remove,
the inner success hypothesis discharged by computation. -/
theorem mutation_mirror_invariant_witness :
    (addBook demoSession "X" "Y" 1 "Z" true).1.file
      = some (.goodJson (serializeLib (addBook demoSession "X" "Y" 1 "Z" true).1.library)) ∧
    (removeBook demoSession 0).1.file
      = some (.goodJson (serializeLib (removeBook demoSession 0).1.library)) :=
  ⟨(mutation_mirror_invariant demoSession "X" "Y" 1 "Z" true 0).1,
   (mutation_mirror_invariant demoSession "X" "Y" 1 "Z" true 0).2 (by decide)⟩

/-- C8: at process start, a storage file with un-parseable contents leaves
the session with the empty library and surfaces an error message, without
crashing (`load_library` is total); an absent file likewise yields the
empty library with an informational notice. -/
theorem load_library_error_handling (text : String) :
    initLibrary (some (.badJson text))
      = (.jarr [], [.stError "Error loading library file. Starting with an empty library."]) ∧
    initLibrary none
      = (.jarr [], [.stInfo "No existing library file found. Starting with an empty library."]) :=
  ⟨rfl, rfl⟩

/-- C9: `load_library` performs no schema validation — any JSON value the
file parses to becomes the library state verbatim, even one that is not
an array of well-formed book objects. -/
theorem load_library_no_validation (current v : JVal) (h : decodeLib v = none) :
    (loadLibrary current (some (.goodJson v))).1 = v ∧
    decodeLib (loadLibrary current (some (.goodJson v))).1 = none :=
  ⟨rfl, h⟩

/-- Witness for C9: a bare number as file contents becomes the library. -/
theorem load_library_no_validation_witness :
    (loadLibrary (.jarr []) (some (.goodJson (.jint 5)))).1 = .jint 5 ∧
    decodeLib (loadLibrary (.jarr []) (some (.goodJson (.jint 5)))).1 = none :=
  load_library_no_validation (.jarr []) (.jint 5) rfl

end BookLib
